import Mathlib

/-!
Verification of the resilient request orchestration core of the
linkedinagent repository: the circuit breaker, retry controller, error
classifier and batch scheduler of
`supabase/functions/linkedin-scraper/index.ts`, and the relay registry
feedback loop of `supabase/functions/proxy-manager/index.ts`.

Conventions of the shallow embedding:
* JavaScript numbers holding health rates, penalties and delays are
  modelled as rationals (`ℚ`); timestamps in milliseconds as `ℕ`.
* The JavaScript falsy-default idiom `x || d` applied to a numeric field
  is modelled explicitly: it replaces `0` (and a missing value) by `d`.
* `Math.min` / `Math.max` are `ratMin` / `ratMax` below.
* The external fetch capability is an oracle `Option Route → ℕ → Option String`
  mapping the chosen route and the attempt index to `none` (success) or
  `some msg` (the error message the classifier inspects).
-/

/-- `Math.min` on rationals. -/
def ratMin (a b : ℚ) : ℚ := if a ≤ b then a else b

/-- `Math.max` on rationals. -/
def ratMax (a b : ℚ) : ℚ := if a ≤ b then b else a

/-! ## Circuit breaker bank (`linkedin-scraper/index.ts`, lines 37-96) -/

/-- The `state` field of a `CircuitBreakerState`: `'closed' | 'open' | 'half-open'`.
(`openState` stands for the string `'open'`, which is a keyword in Lean.) -/
inductive BreakerStatus where
  | closed
  | openState
  | halfOpen
deriving DecidableEq

/-- `interface CircuitBreakerState` of `linkedin-scraper/index.ts`. -/
structure CircuitBreakerState where
  failureCount : ℕ
  lastFailureTime : ℕ
  state : BreakerStatus
deriving DecidableEq

/-- `checkCircuitBreaker` (lines 55-76).  The map lookup is modelled by an
`Option` argument (`none` = no entry for the key).  The function both
returns the allow/deny decision and may mutate the stored breaker
(open → half-open after the 60000 ms window), so the embedding returns
the pair (decision, stored state after the call). -/
def checkCircuitBreaker (b : Option CircuitBreakerState) (now : ℕ) :
    Bool × Option CircuitBreakerState :=
  match b with
  | none => (true, none)
  | some br =>
    match br.state with
    | .closed => (true, some br)
    | .openState =>
      if 60000 < now - br.lastFailureTime then
        (true, some { br with state := .halfOpen })
      else
        (false, some br)
    | .halfOpen => (true, some br)

/-- The allow/deny decision of `checkCircuitBreaker` alone. -/
def allowRequest (b : Option CircuitBreakerState) (now : ℕ) : Bool :=
  (checkCircuitBreaker b now).1

/-- `recordSuccess` (lines 78-83): reset `failureCount` to 0 and the state
to closed (the stored `lastFailureTime` is kept). -/
def recordSuccess (b : Option CircuitBreakerState) : CircuitBreakerState :=
  let br := b.getD ⟨0, 0, .closed⟩
  { br with failureCount := 0, state := .closed }

/-- `recordFailure` (lines 85-96): increment `failureCount`, stamp
`lastFailureTime := now`, and open the breaker once the count reaches 5. -/
def recordFailure (b : Option CircuitBreakerState) (now : ℕ) : CircuitBreakerState :=
  let br := b.getD ⟨0, 0, .closed⟩
  let br2 := { br with failureCount := br.failureCount + 1, lastFailureTime := now }
  if 5 ≤ br2.failureCount then { br2 with state := .openState } else br2

/-- The breaker state of a route after recording the failures at the given
times in order, starting from an absent map entry. -/
def afterFailures (ts : List ℕ) : Option CircuitBreakerState :=
  ts.foldl (fun b t => some (recordFailure b t)) none

/-- The breaker state reached by pure failure recording is determined by the
failure count: closed below 5 failures, open from the fifth on. -/
def statusOfCount (c : ℕ) : BreakerStatus :=
  if 5 ≤ c then .openState else .closed

lemma recordFailure_statusOfCount (c l t : ℕ) :
    recordFailure (some ⟨c, l, statusOfCount c⟩) t = ⟨c + 1, t, statusOfCount (c + 1)⟩ := by
  unfold recordFailure statusOfCount
  by_cases h : 5 ≤ c + 1
  · simp [h]
  · have hc : ¬ 5 ≤ c := fun hc => h (le_trans hc (Nat.le_succ c))
    simp [h, hc]

lemma cons_getLast?_getD (t l : ℕ) (ts : List ℕ) :
    ((t :: ts).getLast?).getD l = (ts.getLast?).getD t := by
  cases ts with
  | nil => simp
  | cons u us =>
    rw [List.getLast?_cons_cons]
    cases h : (u :: us).getLast? with
    | none =>
      exact absurd (List.getLast?_eq_none_iff.mp h) (List.cons_ne_nil u us)
    | some x => simp

lemma foldl_recordFailure (ts : List ℕ) :
    ∀ c l : ℕ,
      ts.foldl (fun b t => some (recordFailure b t)) (some ⟨c, l, statusOfCount c⟩) =
        some ⟨c + ts.length, (ts.getLast?).getD l, statusOfCount (c + ts.length)⟩ := by
  induction ts with
  | nil => intro c l; simp
  | cons t ts ih =>
    intro c l
    rw [List.foldl_cons, recordFailure_statusOfCount, ih (c + 1) t,
      ← cons_getLast?_getD t l ts]
    simp [Nat.add_comm, Nat.add_assoc, Nat.add_left_comm]

lemma afterFailures_eq (t : ℕ) (ts : List ℕ) :
    afterFailures (t :: ts) =
      some ⟨1 + ts.length, (ts.getLast?).getD t, statusOfCount (1 + ts.length)⟩ := by
  have h1 : recordFailure none t = ⟨1, t, statusOfCount 1⟩ := by
    unfold recordFailure statusOfCount; simp
  unfold afterFailures
  rw [List.foldl_cons, h1]
  exact foldl_recordFailure ts 1 t

lemma afterFailures_short (us : List ℕ) (h : us.length ≤ 4) (t : ℕ) :
    allowRequest (afterFailures us) t = true := by
  cases us with
  | nil => simp [afterFailures, allowRequest, checkCircuitBreaker]
  | cons u us =>
    rw [afterFailures_eq]
    have hc : ¬ 5 ≤ 1 + us.length := by
      simp only [List.length_cons] at h
      omega
    simp [allowRequest, checkCircuitBreaker, statusOfCount, hc]

/-- C3: from the initial (absent, hence closed with zero failures) state,
after exactly 5 consecutive recorded failures the breaker denies requests
within the 60 s window since the last failure, while after any prefix of
at most 4 failures it still allows them. -/
theorem c3_breaker_opens_at_five (ts : List ℕ) (t5 tc k tk : ℕ)
    (h5 : ts.length = 5) (hl : ts.getLast? = some t5)
    (hw : tc - t5 ≤ 60000) (hk : k < 5) :
    allowRequest (afterFailures ts) tc = false ∧
      allowRequest (afterFailures (ts.take k)) tk = true := by
  constructor
  · cases ts with
    | nil => simp at h5
    | cons t ts' =>
      rw [afterFailures_eq]
      have hlen : 1 + ts'.length = 5 := by
        simp only [List.length_cons] at h5; omega
      have hlast : (ts'.getLast?).getD t = t5 := by
        rw [← cons_getLast?_getD t t ts', hl]
        rfl
      rw [hlast, hlen]
      have : ¬ 60000 < tc - t5 := by omega
      simp [allowRequest, checkCircuitBreaker, statusOfCount, this]
  · refine afterFailures_short _ ?_ tk
    have : (ts.take k).length = k := by
      rw [List.length_take, h5]; omega
    omega

/-- Witness for C3 at the concrete failure times `[10, 20, 30, 40, 50]`,
checked within the window at `tc = 60050`, with the prefix of 4 failures
probed at `tk = 60050` as well. -/
theorem c3_breaker_opens_at_five_witness :
    allowRequest (afterFailures [10, 20, 30, 40, 50]) 60050 = false ∧
      allowRequest (afterFailures ([10, 20, 30, 40, 50].take 4)) 60050 = true :=
  c3_breaker_opens_at_five [10, 20, 30, 40, 50] 50 60050 4 60050
    (by decide) (by decide) (by decide) (by decide)

/-- C4 counterexample: an open breaker (5 failures, last at time 0) probed
at time 60001 allows the request and becomes half-open — but a second
`checkCircuitBreaker` call on the stored state, before any outcome is
recorded, also returns true, contradicting the claim that exactly one
trial passes in the half-open state. -/
theorem c4_counterexample :
    (checkCircuitBreaker (some ⟨5, 0, .openState⟩) 60001).1 = true ∧
      (checkCircuitBreaker
        ((checkCircuitBreaker (some ⟨5, 0, .openState⟩) 60001).2) 60001).1 = true := by
  decide

/-- C4 amended: once the 60 s window since the last failure has elapsed, the
next `checkCircuitBreaker` call on an open breaker returns true and stores
the half-open state; however every further call in the half-open state also
returns true (the code places no single-trial limit), until an outcome is
recorded — `recordSuccess` resets the breaker to closed with zero failures. -/
theorem c4_half_open_allows (br : CircuitBreakerState) (now now2 : ℕ)
    (hs : br.state = .openState) (hw : 60000 < now - br.lastFailureTime) :
    checkCircuitBreaker (some br) now = (true, some { br with state := .halfOpen }) ∧
      allowRequest (some { br with state := .halfOpen }) now2 = true ∧
      recordSuccess (some { br with state := .halfOpen }) =
        ⟨0, br.lastFailureTime, .closed⟩ := by
  refine ⟨?_, ?_, ?_⟩
  · simp [checkCircuitBreaker, hs, hw]
  · simp [allowRequest, checkCircuitBreaker]
  · simp [recordSuccess]

/-- Witness for C4 amended at the breaker `⟨5, 0, open⟩` probed at 60001
and re-probed at 60002. -/
theorem c4_half_open_allows_witness :
    checkCircuitBreaker (some ⟨5, 0, .openState⟩) 60001 =
        (true, some ⟨5, 0, .halfOpen⟩) ∧
      allowRequest (some ⟨5, 0, .halfOpen⟩) 60002 = true ∧
      recordSuccess (some ⟨5, 0, .halfOpen⟩) = ⟨0, 0, .closed⟩ :=
  c4_half_open_allows ⟨5, 0, .openState⟩ 60001 60002 rfl (by decide)

/-! ## Error classification and backoff (`linkedin-scraper/index.ts`, lines 388-410) -/

/-- The `.toLowerCase()` normalisation of the classifiers, written over the
character list so that the kernel can evaluate it (Lean's own
`String.toLower` is an equivalent well-founded recursion over positions). -/
def strToLower (s : String) : String := ⟨s.data.map Char.toLower⟩

/-- Substring containment on strings: `s` contains `pat` as a contiguous
substring (the JavaScript `String.prototype.includes`). -/
def strContains (s pat : String) : Bool :=
  s.toList.tails.any (fun t => pat.toList.isPrefixOf t)

/-- The result of `categorizeError`: `'temporary' | 'permanent' | 'rate_limit'`. -/
inductive ErrorCategory where
  | temporary
  | permanent
  | rateLimit
deriving DecidableEq

/-- `categorizeError` (lines 397-410): lowercase the message, check the
rate-limit markers first, then the permanent markers, else temporary. -/
def categorizeError (errorMsg : String) : ErrorCategory :=
  let e := strToLower errorMsg
  if strContains e "rate limit" || strContains e "429" then
    .rateLimit
  else if strContains e "blocked" || strContains e "captcha" ||
      strContains e "403" || strContains e "401" then
    .permanent
  else
    .temporary

/-- The backoff multiplier of `calculateBackoffTime`:
`errorCategory === 'rate_limit' ? 3 : 2`. -/
def multiplierOf (cat : ErrorCategory) : ℚ :=
  if cat = .rateLimit then 3 else 2

/-- `calculateBackoffTime` (lines 388-395): `min(1000 * multiplier^attempt
+ jitter, 30000)`, where `attempt` is the index of the attempt that just
failed and `jitter` stands for the `Math.random() * 1000` draw. -/
def calculateBackoffTime (attempt : ℕ) (cat : ErrorCategory) (jitter : ℚ) : ℚ :=
  ratMin (1000 * multiplierOf cat ^ attempt + jitter) 30000

/-- The unconditional pacing delay at the top of each loop iteration of
`scrapeWithRetry` (lines 314-320): `1000 * 1.5^(attempt-1) + jitter`,
`jitter` standing for the `Math.random() * 500` draw. -/
def preAttemptDelay (attempt : ℕ) (jitter : ℚ) : ℚ :=
  1000 * (3 / 2 : ℚ) ^ (attempt - 1) + jitter

/-! ## Retry controller (`linkedin-scraper/index.ts`, lines 306-386) -/

/-- A relay route: host and port of a proxy (`proxy.host`, `proxy.port`).
`Option Route` is the route argument of a fetch — `none` is the direct
connection. -/
structure Route where
  host : String
  port : ℕ
deriving DecidableEq

/-- The outcome of `scrapeWithRetry`: success carrying the
`attemptsUsed` metadata field, or the final error message. -/
inductive ScrapeResult where
  | ok (attemptsUsed : ℕ)
  | err (msg : String)
deriving DecidableEq

/-- The `for (attempt = 1; attempt <= maxRetries; ...)` loop of
`scrapeWithRetry`, with `fuel` the number of attempts still permitted and
`lastError` the running `lastError` variable.  `fetch route attempt` is
the external fetch capability (`performActualScraping` plus its timeout
race): `none` on success, `some msg` on failure.  The route argument the
loop passes to every fetch is the `proxy` parameter fixed at entry; the
returned list records the route of each fetch invocation, one entry per
attempt, in order. -/
def scrapeLoop (proxy : Option Route) (fetch : Option Route → ℕ → Option String) :
    ℕ → ℕ → Option String → ScrapeResult × List (Option Route)
  | 0, _, lastError => (.err (lastError.getD "All retry attempts failed"), [])
  | fuel + 1, attempt, _ =>
    match fetch proxy attempt with
    | none => (.ok attempt, [proxy])
    | some msg =>
      let emsg := if msg = "" then "Unknown scraping error" else msg
      if categorizeError emsg = .permanent then
        (.err emsg, [proxy])
      else
        let rest := scrapeLoop proxy fetch fuel (attempt + 1) (some emsg)
        (rest.1, proxy :: rest.2)

/-- `scrapeWithRetry` (lines 306-386): run the loop from attempt 1 with no
prior error.  The second component is the instrumentation of the fetch
routes, one per attempt. -/
def scrapeWithRetry (proxy : Option Route) (fetch : Option Route → ℕ → Option String)
    (maxRetries : ℕ) : ScrapeResult × List (Option Route) :=
  scrapeLoop proxy fetch maxRetries 1 none

/-! ## Relay registry feedback loop (`proxy-manager/index.ts`) -/

/-- A row of the `proxy_configs` table, restricted to the fields the
feedback loop reads and writes.  `success_rate` is a rational in place of
the JavaScript float; the timestamp column `last_used_at` is not
modelled (no claim depends on it). -/
structure ProxyRecord where
  success_rate : ℚ
  is_active : Bool
  successful_requests : ℕ
  failed_requests : ℕ
  total_requests : ℕ
  avg_response_time : ℚ
  last_error_message : Option String
  health_check_status : String
deriving DecidableEq

/-- `MIN_SUCCESS_RATE` of `proxy-manager/index.ts` (line 320). -/
def minSuccessRate : ℚ := 25

/-- `categorizeErrorSeverity` (lines 639-674): the failure penalty by
error-message class. -/
def categorizeErrorSeverity (errorMessage : String) : ℚ :=
  let e := strToLower errorMessage
  if strContains e "connection refused" || strContains e "network unreachable" ||
      strContains e "proxy authentication failed" ||
      strContains e "proxy connection failed" then
    25
  else if strContains e "timeout" || strContains e "connection reset" ||
      strContains e "502" || strContains e "503" || strContains e "504" then
    18
  else if strContains e "rate limit" || strContains e "429" ||
      strContains e "captcha" || strContains e "too many requests" then
    12
  else if strContains e "parsing" || strContains e "element not found" ||
      strContains e "invalid response" then
    5
  else
    8

/-- `reportProxySuccess` (lines 528-575): EMA step toward 100 with
`alpha = 0.1`, clamped by `Math.min(100, ·)`; increments
`successful_requests` and unconditionally reactivates the relay
(`is_active: true`).  (The JavaScript `success_rate || 0` coercion is the
identity on a stored number, since `0 || 0 = 0`.)  The computed
`totalRequests` is not part of the written update in the source, so
`total_requests` is unchanged. -/
def reportProxySuccess (p : ProxyRecord) : ProxyRecord :=
  let currentRate := p.success_rate
  let newRate := ratMin 100 (currentRate + (100 - currentRate) * (1 / 10))
  { p with
    success_rate := newRate,
    successful_requests := p.successful_requests + 1,
    is_active := true }

/-- `reportProxyFailure` (lines 577-637): subtract `penalty * 0.15` from
the current rate, clamped by `Math.max(0, ·)`; increment
`failed_requests`; deactivate unless the new rate exceeds
`MIN_SUCCESS_RATE`.  The source reads the current rate as
`proxy.success_rate || 100`, so a stored rate of exactly 0 (falsy) is
replaced by the default 100 — modelled by the explicit conditional. -/
def reportProxyFailure (p : ProxyRecord) (errorMessage : String) : ProxyRecord :=
  let currentRate := if p.success_rate = 0 then 100 else p.success_rate
  let penalty := categorizeErrorSeverity errorMessage
  let newRate := ratMax 0 (currentRate - penalty * (15 / 100))
  { p with
    success_rate := newRate,
    failed_requests := p.failed_requests + 1,
    is_active := decide (minSuccessRate < newRate),
    last_error_message := some errorMessage }

/-- The per-relay update of `performHealthCheck` (lines 733-772): an
unhealthy relay (or one whose simulated health score is below 30) is
deactivated with a 15-point rate penalty (again via the
`success_rate || 100` falsy coercion); a healthy one only records the
passed check and its response time. -/
def healthCheckUpdate (p : ProxyRecord) (isHealthy : Bool)
    (healthScore responseTime : ℚ) : ProxyRecord :=
  if !isHealthy || decide (healthScore < 30) then
    { p with
      is_active := false,
      success_rate := ratMax 0 ((if p.success_rate = 0 then 100 else p.success_rate) - 15),
      health_check_status := "failed",
      last_error_message := some "Health check failed" }
  else
    { p with
      health_check_status := "passed",
      avg_response_time := responseTime }

/-- The per-relay effect of the administrative `resetCircuitBreakers`
action (lines 800-832): reactivate with the default rate 85. -/
def resetProxyRecord (p : ProxyRecord) : ProxyRecord :=
  { p with
    is_active := true,
    success_rate := 85,
    last_error_message := none,
    health_check_status := "unknown" }

/-- One core operation against a relay record, as quantified by C1. -/
inductive ProxyOp where
  | success
  | failure (msg : String)
  | health (isHealthy : Bool) (healthScore responseTime : ℚ)
  | adminReset
deriving DecidableEq

/-- Apply one core operation to a relay record. -/
def applyProxyOp (p : ProxyRecord) : ProxyOp → ProxyRecord
  | .success => reportProxySuccess p
  | .failure msg => reportProxyFailure p msg
  | .health h s r => healthCheckUpdate p h s r
  | .adminReset => resetProxyRecord p

/-- The single-scrape outcome reporting of the `linkedin-scraper` serve
handler (lines 162-201): a final error reports one failure against the
relay used, a final success reports one success. -/
def handleScrapeOutcome (p : ProxyRecord) (r : ScrapeResult) : ProxyRecord :=
  match r with
  | .ok _ => reportProxySuccess p
  | .err msg => reportProxyFailure p msg

/-! ## Batch scheduler (`linkedin-scraper/index.ts`, lines 236-304) -/

/-- One entry of the `results` array of `processBatchScraping`: the target
url, the success flag (`!profileData.error`) and the final error message
when there is one. -/
structure BatchItem where
  url : String
  success : Bool
  errorMsg : Option String
deriving DecidableEq

/-- The summary object of `processBatchScraping`. -/
structure BatchSummary where
  total : ℕ
  successful : ℕ
  failed : ℕ
  successRate : ℚ
deriving DecidableEq

/-- The per-target body of the batch loop (lines 244-269): fetch an
optimal relay for the target (`proxyOf url`, the `get_optimal_proxy`
response for this invocation), run `scrapeWithRetry`, and build the
result entry.  One entry is produced per target whatever the outcome. -/
def scrapeTarget (proxyOf : String → Option Route)
    (fetchOf : String → Option Route → ℕ → Option String) (url : String) : BatchItem :=
  match (scrapeWithRetry (proxyOf url) (fetchOf url) 5).1 with
  | .ok _ => { url := url, success := true, errorMsg := none }
  | .err m => { url := url, success := false, errorMsg := some m }

/-- The chunked loop `for (i = 0; i < urls.length; i += concurrentLimit)`
of `processBatchScraping`: each chunk of `limit` targets is processed
(concurrently in the source, joined with `Promise.allSettled`, so every
target of the chunk contributes exactly one entry) and the chunk results
are appended in order.  The source only runs the loop with
`limit = min 5 urls.length ≥ 1`; the `max 1` makes the recursion total
without changing those runs. -/
def runChunks (f : String → BatchItem) (limit : ℕ) (urls : List String) :
    List BatchItem :=
  match urls with
  | [] => []
  | u :: rest =>
    ((u :: rest).take (max 1 limit)).map f ++
      runChunks f limit ((u :: rest).drop (max 1 limit))
termination_by urls.length
decreasing_by
  simp only [List.length_drop, List.length_cons]
  omega

/-- `processBatchScraping` (lines 236-304): chunk size
`Math.min(MAX_CONCURRENT_SCRAPES, urls.length)` with
`MAX_CONCURRENT_SCRAPES = 5`, then the summary over the collected
results.  Returns the summary together with the results list. -/
def processBatchScraping (urls : List String) (proxyOf : String → Option Route)
    (fetchOf : String → Option Route → ℕ → Option String) :
    BatchSummary × List BatchItem :=
  let limit := min 5 urls.length
  let results := runChunks (scrapeTarget proxyOf fetchOf) limit urls
  ({ total := urls.length,
     successful := (results.filter (fun r => r.success)).length,
     failed := (results.filter (fun r => !r.success)).length,
     successRate := ((results.filter (fun r => r.success)).length : ℚ) / (urls.length : ℚ) },
   results)

/-! ## Claims C1, C2, C10: the registry feedback invariants -/

lemma ratMax_nonneg (y : ℚ) : 0 ≤ ratMax 0 y := by
  unfold ratMax; split <;> linarith

lemma ratMax_le (y c : ℚ) (h0 : 0 ≤ c) (hy : y ≤ c) : ratMax 0 y ≤ c := by
  unfold ratMax; split <;> linarith

lemma ratMin_bounds (a b : ℚ) (h0a : 0 ≤ a) (h0b : 0 ≤ b) :
    0 ≤ ratMin a b ∧ ratMin a b ≤ a := by
  unfold ratMin; constructor <;> split <;> linarith

/-- Every branch of `categorizeErrorSeverity` returns a strictly positive
penalty (25, 18, 12, 5 or 8). -/
lemma severity_pos (msg : String) : 0 < categorizeErrorSeverity msg := by
  simp only [categorizeErrorSeverity]
  split
  · norm_num
  · split
    · norm_num
    · split
      · norm_num
      · split <;> norm_num

lemma fallback_rate_bounds (r : ℚ) (h0 : 0 ≤ r) (h1 : r ≤ 100) :
    0 ≤ (if r = 0 then (100 : ℚ) else r) ∧ (if r = 0 then (100 : ℚ) else r) ≤ 100 := by
  split <;> constructor <;> linarith

/-- Each single core operation keeps `success_rate` within `[0, 100]`. -/
lemma applyProxyOp_rate_bounds (p : ProxyRecord) (op : ProxyOp)
    (h0 : 0 ≤ p.success_rate) (h1 : p.success_rate ≤ 100) :
    0 ≤ (applyProxyOp p op).success_rate ∧ (applyProxyOp p op).success_rate ≤ 100 := by
  cases op with
  | success =>
    simp only [applyProxyOp, reportProxySuccess]
    have hb := ratMin_bounds 100 (p.success_rate + (100 - p.success_rate) * (1 / 10))
      (by norm_num) (by linarith)
    exact ⟨hb.1, hb.2⟩
  | failure msg =>
    simp only [applyProxyOp, reportProxyFailure]
    have hcr := fallback_rate_bounds p.success_rate h0 h1
    have hp := severity_pos msg
    refine ⟨ratMax_nonneg _, ratMax_le _ _ (by norm_num) ?_⟩
    nlinarith [hcr.1, hcr.2]
  | health hh s r =>
    simp only [applyProxyOp, healthCheckUpdate]
    split
    · have hcr := fallback_rate_bounds p.success_rate h0 h1
      exact ⟨ratMax_nonneg _, ratMax_le _ _ (by norm_num) (by linarith [hcr.2])⟩
    · exact ⟨h0, h1⟩
  | adminReset =>
    simp only [applyProxyOp, resetProxyRecord]
    norm_num

/-- C1: starting from any relay record whose `success_rate` lies in
`[0, 100]`, every sequence of core operations (success report, failure
report, health check, administrative reset) keeps the stored
`success_rate` within `[0, 100]`: the success EMA is clamped by
`Math.min(100, ·)` and the failure / health-check penalties by
`Math.max(0, ·)`. -/
theorem c1_successRate_bounded (p : ProxyRecord) (ops : List ProxyOp)
    (h0 : 0 ≤ p.success_rate) (h1 : p.success_rate ≤ 100) :
    0 ≤ (ops.foldl applyProxyOp p).success_rate ∧
      (ops.foldl applyProxyOp p).success_rate ≤ 100 := by
  induction ops generalizing p with
  | nil => exact ⟨h0, h1⟩
  | cons op ops ih =>
    rw [List.foldl_cons]
    have h := applyProxyOp_rate_bounds p op h0 h1
    exact ih _ h.1 h.2

/-- A healthy mid-range relay record used as a concrete fixture. -/
def pFix : ProxyRecord :=
  { success_rate := 50, is_active := true, successful_requests := 10,
    failed_requests := 2, total_requests := 12, avg_response_time := 1000,
    last_error_message := none, health_check_status := "passed" }

/-- Witness for C1: a mixed sequence of all four operation kinds applied
to the fixture record with rate 50. -/
theorem c1_successRate_bounded_witness :
    (0 : ℚ) ≤ pFix.success_rate ∧ pFix.success_rate ≤ 100 ∧
      0 ≤ (([ProxyOp.success, .failure "timeout", .health false 20 300,
          .adminReset, .failure "captcha"]).foldl applyProxyOp pFix).success_rate ∧
      (([ProxyOp.success, .failure "timeout", .health false 20 300,
          .adminReset, .failure "captcha"]).foldl applyProxyOp pFix).success_rate ≤ 100 :=
  ⟨by norm_num [pFix], by norm_num [pFix],
    (c1_successRate_bounded pFix _ (by norm_num [pFix]) (by norm_num [pFix])).1,
    (c1_successRate_bounded pFix _ (by norm_num [pFix]) (by norm_num [pFix])).2⟩

/-- A worn-out relay record with `success_rate = 0`. -/
def pLow : ProxyRecord :=
  { success_rate := 0, is_active := false, successful_requests := 0,
    failed_requests := 8, total_requests := 8, avg_response_time := 1000,
    last_error_message := some "timeout", health_check_status := "failed" }

/-- C2 counterexample: a success report on a relay with rate 0 yields the
post-state rate `min(100, 0 + 100·0.1) = 10 ≤ 25`, yet `is_active` is set
to `true` unconditionally (`is_active: true // Reactivate if it was
disabled`), so the claimed post-state implication
`successRate ≤ 25 → active = false` fails after a success report. -/
theorem c2_counterexample :
    (reportProxySuccess pLow).success_rate ≤ 25 ∧
      (reportProxySuccess pLow).is_active = true := by
  constructor
  · norm_num [reportProxySuccess, ratMin, pLow]
  · rfl

/-- C2 amended: after a failure report the post-state satisfies
`successRate ≤ MIN_SUCCESS_RATE (= 25) → active = false` (the update sets
`is_active := newRate > 25`); a success report instead sets
`active = true` unconditionally (self-healing), even when the updated
rate is still at or below the threshold. -/
theorem c2_failure_deactivates (p : ProxyRecord) (msg : String)
    (h : (reportProxyFailure p msg).success_rate ≤ minSuccessRate) :
    (reportProxyFailure p msg).is_active = false ∧
      (reportProxySuccess p).is_active = true := by
  constructor
  · simp only [reportProxyFailure] at h ⊢
    exact decide_eq_false (not_lt.mpr h)
  · rfl

/-- A relay record just above the deactivation threshold. -/
def pMid : ProxyRecord :=
  { success_rate := 26, is_active := true, successful_requests := 3,
    failed_requests := 5, total_requests := 8, avg_response_time := 1000,
    last_error_message := none, health_check_status := "passed" }

/-- Witness for C2 amended: a "connection refused" failure on the rate-26
record drops the rate to 22.25 ≤ 25 and deactivates the relay. -/
theorem c2_failure_deactivates_witness :
    (reportProxyFailure pMid "connection refused").success_rate ≤ minSuccessRate ∧
      (reportProxyFailure pMid "connection refused").is_active = false ∧
      (reportProxySuccess pMid).is_active = true := by
  have hsev : categorizeErrorSeverity "connection refused" = 25 := rfl
  have hle : (reportProxyFailure pMid "connection refused").success_rate ≤ minSuccessRate := by
    norm_num [reportProxyFailure, ratMax, hsev, pMid, minSuccessRate]
  exact ⟨hle, (c2_failure_deactivates pMid "connection refused" hle).1,
    (c2_failure_deactivates pMid "connection refused" hle).2⟩

/-- C10, at the failing input: the relay with stored `success_rate = 0`
reporting a failure with message "parsing".  The source reads the current
rate as `proxy.success_rate || 100`, and `0` is falsy in JavaScript, so
the penalty is applied to the default 100 instead of the stored 0: the
rate jumps from 0 to `max(0, 100 − 5·0.15) = 99.25`, an INCREASE on a
failure report — contradicting the monotone penalty formula
`successRate ← max(0, successRate − penalty × α)` the code implements
everywhere else (and intends, per its own comment "penalize failures more
heavily"). -/
theorem c10_failure_raises_rate_at_zero :
    pLow.success_rate = 0 ∧
      (reportProxyFailure pLow "parsing").success_rate = 397 / 4 ∧
      pLow.success_rate < (reportProxyFailure pLow "parsing").success_rate := by
  have hsev : categorizeErrorSeverity "parsing" = 5 := rfl
  refine ⟨rfl, ?_, ?_⟩
  · norm_num [reportProxyFailure, ratMax, hsev, pLow]
  · have h : (reportProxyFailure pLow "parsing").success_rate = 397 / 4 := by
      norm_num [reportProxyFailure, ratMax, hsev, pLow]
    rw [h]
    norm_num [pLow]

/-! ## Claims C5, C6, C7: the retry controller -/

/-- C5 amended (Scenario B): with the fetch failing on attempts 1-3 with
"connection refused" (classified temporary, hence retried) and succeeding
on attempt 4 within the 5-attempt cap, `scrapeWithRetry` returns the
success result with `attemptsUsed = 4`; the serve handler then reports a
single success for the relay used, so `successful_requests` grows by
exactly 1 and `failed_requests` by 0 — the intermediate failed attempts
are never reported to the registry (only the final outcome of the whole
retry loop is). -/
theorem c5_scenarioB (p : ProxyRecord) (proxy : Option Route)
    (fetch : Option Route → ℕ → Option String)
    (h1 : fetch proxy 1 = some "connection refused")
    (h2 : fetch proxy 2 = some "connection refused")
    (h3 : fetch proxy 3 = some "connection refused")
    (h4 : fetch proxy 4 = none) :
    (scrapeWithRetry proxy fetch 5).1 = .ok 4 ∧
      handleScrapeOutcome p (scrapeWithRetry proxy fetch 5).1 = reportProxySuccess p ∧
      (handleScrapeOutcome p (scrapeWithRetry proxy fetch 5).1).successful_requests =
        p.successful_requests + 1 ∧
      (handleScrapeOutcome p (scrapeWithRetry proxy fetch 5).1).failed_requests =
        p.failed_requests := by
  have hcat : categorizeError "connection refused" = .temporary := rfl
  have hres : (scrapeWithRetry proxy fetch 5).1 = .ok 4 := by
    simp [scrapeWithRetry, scrapeLoop, h1, h2, h3, h4, hcat]
  refine ⟨hres, ?_, ?_, ?_⟩ <;> rw [hres] <;> rfl

/-- The Scenario B fetch oracle: "connection refused" on attempts 1-3,
success from attempt 4 on. -/
def fetchScenarioB : Option Route → ℕ → Option String :=
  fun _ n => if n ≤ 3 then some "connection refused" else none

/-- The relay record of Scenario B before the run (2 failures recorded so
far). -/
def pB : ProxyRecord :=
  { success_rate := 80, is_active := true, successful_requests := 10,
    failed_requests := 2, total_requests := 12, avg_response_time := 1000,
    last_error_message := none, health_check_status := "passed" }

/-- C5 counterexample at the concrete Scenario B run: the retry loop
succeeds on attempt 4, yet the relay's `failed_requests` stays at 2 — it
does NOT grow by the claimed 3.  The serve handler (lines 162-201)
reports one outcome per logical request after the loop finishes, and
`scrapeWithRetry` itself never invokes the proxy-manager between
attempts. -/
theorem c5_counterexample :
    (scrapeWithRetry (some ⟨"relay-1", 8080⟩) fetchScenarioB 5).1 = .ok 4 ∧
      (handleScrapeOutcome pB
          (scrapeWithRetry (some ⟨"relay-1", 8080⟩) fetchScenarioB 5).1).successful_requests =
        pB.successful_requests + 1 ∧
      (handleScrapeOutcome pB
          (scrapeWithRetry (some ⟨"relay-1", 8080⟩) fetchScenarioB 5).1).failed_requests =
        pB.failed_requests ∧
      ¬ ((handleScrapeOutcome pB
          (scrapeWithRetry (some ⟨"relay-1", 8080⟩) fetchScenarioB 5).1).failed_requests =
        pB.failed_requests + 3) := by
  decide

/-- Witness for C5 amended: the general theorem applied to the concrete
Scenario B oracle and the fixture record `pFix`. -/
theorem c5_scenarioB_witness :
    (scrapeWithRetry none fetchScenarioB 5).1 = .ok 4 ∧
      handleScrapeOutcome pFix (scrapeWithRetry none fetchScenarioB 5).1 =
        reportProxySuccess pFix ∧
      (handleScrapeOutcome pFix (scrapeWithRetry none fetchScenarioB 5).1).successful_requests =
        pFix.successful_requests + 1 ∧
      (handleScrapeOutcome pFix (scrapeWithRetry none fetchScenarioB 5).1).failed_requests =
        pFix.failed_requests :=
  c5_scenarioB pFix none fetchScenarioB rfl rfl rfl rfl

/-- The route of the concrete C6 run. -/
def proxyA : Route := ⟨"proxy-a", 8080⟩

/-- A fetch oracle failing every attempt with "timeout" (classified
temporary, so every attempt of the budget is consumed). -/
def fetchTimeoutAlways : Option Route → ℕ → Option String :=
  fun _ _ => some "timeout"

/-- C6 counterexample: a single-scrape run whose 5 attempts all fail
transiently passes the identical pre-selected route to every one of its 5
fetch invocations.  In the source the serve handler obtains a relay from
the proxy-manager once, before calling `scrapeWithRetry(url,
proxyData?.proxy)`, and the loop body of `scrapeWithRetry` contains no
selection call at all — so the route cannot be "obtained anew via the
Registry snapshot and Weighted Selector" before each attempt, and
selection IS sticky across the attempts of one logical request. -/
theorem c6_counterexample :
    (scrapeWithRetry (some proxyA) fetchTimeoutAlways 5).2 =
      List.replicate 5 (some proxyA) := by
  decide

/-- C6 amended: selection happens once per logical request, before the
retry loop; every attempt of that request reuses the route fixed at
entry (the recorded route of every fetch invocation equals the `proxy`
parameter), for every fetch oracle and every attempt budget.  Re-selection
happens only across distinct logical requests (each serve-handler call and
each batch target obtains its own relay). -/
theorem c6_route_fixed (proxy : Option Route) (fetch : Option Route → ℕ → Option String)
    (maxRetries : ℕ) :
    ((scrapeWithRetry proxy fetch maxRetries).2).all (fun r => r == proxy) = true := by
  suffices h : ∀ (fuel attempt : ℕ) (le : Option String),
      ∀ x ∈ (scrapeLoop proxy fetch fuel attempt le).2, x = proxy by
    rw [List.all_eq_true]
    intro x hx
    exact beq_iff_eq.mpr (h maxRetries 1 none x hx)
  intro fuel
  induction fuel with
  | zero =>
    intro attempt le x hx
    simp [scrapeLoop] at hx
  | succ n ih =>
    intro attempt le x hx
    cases hm : fetch proxy attempt with
    | none =>
      simp [scrapeLoop, hm] at hx
      exact hx
    | some msg =>
      simp only [scrapeLoop, hm] at hx
      split at hx <;> split at hx
      all_goals try exact List.mem_singleton.mp hx
      all_goals rcases List.mem_cons.mp hx with h | h
      all_goals first | exact h | exact ih _ _ x h

/-- C7 amended: an error message containing "captcha" (after lowercasing)
that does NOT also contain one of the rate-limit markers "rate limit" or
"429" is classified permanent, and the retry loop returns that error
after exactly 1 attempt, for any remaining attempt budget. -/
theorem c7_captcha_permanent (msg : String) (proxy : Option Route)
    (fetch : Option Route → ℕ → Option String) (maxRetries : ℕ)
    (hcap : strContains (strToLower msg) "captcha" = true)
    (hrl : strContains (strToLower msg) "rate limit" = false)
    (h429 : strContains (strToLower msg) "429" = false)
    (hne : msg ≠ "")
    (hmax : 1 ≤ maxRetries)
    (hf : fetch proxy 1 = some msg) :
    categorizeError msg = .permanent ∧
      (scrapeWithRetry proxy fetch maxRetries).1 = .err msg ∧
      (scrapeWithRetry proxy fetch maxRetries).2.length = 1 := by
  have hcat : categorizeError msg = .permanent := by
    simp [categorizeError, hcap, hrl, h429]
  obtain ⟨m, rfl⟩ : ∃ m, maxRetries = m + 1 := ⟨maxRetries - 1, by omega⟩
  refine ⟨hcat, ?_, ?_⟩ <;>
    simp [scrapeWithRetry, scrapeLoop, hf, hne, hcat]

/-- A fetch oracle failing every attempt with "Captcha detected". -/
def fetchCaptchaDetected : Option Route → ℕ → Option String :=
  fun _ _ => some "Captcha detected"

/-- Witness for C7 amended at the message "Captcha detected" with a budget
of 5 attempts. -/
theorem c7_captcha_permanent_witness :
    strContains (strToLower "Captcha detected") "captcha" = true ∧
      strContains (strToLower "Captcha detected") "rate limit" = false ∧
      strContains (strToLower "Captcha detected") "429" = false ∧
      categorizeError "Captcha detected" = .permanent ∧
      (scrapeWithRetry none fetchCaptchaDetected 5).1 = .err "Captcha detected" ∧
      (scrapeWithRetry none fetchCaptchaDetected 5).2.length = 1 := by
  have h := c7_captcha_permanent "Captcha detected" none fetchCaptchaDetected 5
    (by decide) (by decide) (by decide) (by decide) (by norm_num) rfl
  exact ⟨by decide, by decide, by decide, h.1, h.2.1, h.2.2⟩

/-- A fetch oracle failing every attempt with "429 captcha". -/
def fetchCaptcha429 : Option Route → ℕ → Option String :=
  fun _ _ => some "429 captcha"

/-- C7 counterexample: the message "429 captcha" contains "captcha", yet
`categorizeError` checks the rate-limit markers first and classifies it
`rate_limit`, so the retry loop consumes the whole 5-attempt budget
instead of returning after exactly 1 attempt. -/
theorem c7_counterexample :
    strContains (strToLower "429 captcha") "captcha" = true ∧
      categorizeError "429 captcha" = .rateLimit ∧
      (scrapeWithRetry none fetchCaptcha429 5).1 = .err "429 captcha" ∧
      (scrapeWithRetry none fetchCaptcha429 5).2.length = 5 := by
  decide

/-! ## Claim C8: the backoff formula -/

/-- C8 counterexample: after the 4th failed attempt with a rate-limit
error (zero jitter for concreteness), `calculateBackoffTime` returns the
cap 30000, while the claimed formula `base · multiplier^(attempt−1) +
jitter` with multiplier 3 gives 27000 under next-attempt indexing
(attempt = 5) and 81000 under failed-attempt indexing (attempt = 4) —
neither matches, because the code computes `multiplier^attempt` of the
failed attempt and clamps the result by `Math.min(·, 30000)`, a cap the
claim omits. -/
theorem c8_counterexample :
    calculateBackoffTime 4 .rateLimit 0 = 30000 ∧
      (1000 * multiplierOf .rateLimit ^ (4 - 1) + 0 : ℚ) = 27000 ∧
      (1000 * multiplierOf .rateLimit ^ 4 + 0 : ℚ) = 81000 ∧
      (30000 : ℚ) ≠ 27000 ∧ (30000 : ℚ) ≠ 81000 := by
  refine ⟨?_, ?_, ?_, by norm_num, by norm_num⟩ <;>
    norm_num [calculateBackoffTime, ratMin, multiplierOf]

/-- C8 amended: the backoff applied after a failed attempt `k` (i.e.
before attempt `k + 1`) equals
`min(1000 · multiplier^((k+1)−1) + jitter, 30000)`, with multiplier 3
when the prior error was rate-limit-classified and 2 (within the claimed
1.5-2 range) otherwise, and jitter drawn uniformly from `[0, 1000)`; for
`k ≤ 3` (hence for every temporary-error backoff of the default 5-attempt
budget) the 30 s cap is inactive and the delay is exactly
`1000 · multiplier^k + jitter`.  Additionally every attempt `k + 1` is
preceded by the category-independent pacing delay
`1000 · 1.5^k + jitter`. -/
theorem c8_backoff_formula (k : ℕ) (cat : ErrorCategory) (j : ℚ)
    (_hj0 : 0 ≤ j) (hj : j < 1000) :
    calculateBackoffTime k cat j =
        ratMin (1000 * multiplierOf cat ^ ((k + 1) - 1) + j) 30000 ∧
      (cat = .rateLimit → multiplierOf cat = 3) ∧
      (cat ≠ .rateLimit →
        multiplierOf cat = 2 ∧ (3 / 2 : ℚ) ≤ multiplierOf cat ∧ multiplierOf cat ≤ 2) ∧
      (k ≤ 3 → calculateBackoffTime k cat j = 1000 * multiplierOf cat ^ k + j) ∧
      preAttemptDelay (k + 1) j = 1000 * (3 / 2 : ℚ) ^ k + j := by
  refine ⟨rfl, ?_, ?_, ?_, ?_⟩
  · intro h; simp [multiplierOf, h]
  · intro h
    refine ⟨by simp [multiplierOf, h], ?_, ?_⟩ <;> simp [multiplierOf, h] <;> norm_num
  · intro hk
    have hm : multiplierOf cat = 3 ∨ multiplierOf cat = 2 := by
      cases cat <;> simp [multiplierOf]
    unfold calculateBackoffTime ratMin
    rw [if_pos]
    rcases hm with h | h <;> rw [h] <;> interval_cases k <;> norm_num <;> linarith
  · simp [preAttemptDelay]

/-- Witness for C8 amended at `k = 2`, a temporary prior error and jitter
500: both the ratMin form and the uncapped form evaluate, with the
hypotheses `0 ≤ 500 < 1000` checked concretely. -/
theorem c8_backoff_formula_witness :
    (0 : ℚ) ≤ 500 ∧ (500 : ℚ) < 1000 ∧
      calculateBackoffTime 2 .temporary 500 =
        ratMin (1000 * multiplierOf .temporary ^ (3 - 1) + 500) 30000 ∧
      calculateBackoffTime 2 .temporary 500 = 1000 * multiplierOf .temporary ^ 2 + 500 :=
  ⟨by norm_num, by norm_num,
    (c8_backoff_formula 2 .temporary 500 (by norm_num) (by norm_num)).1,
    (c8_backoff_formula 2 .temporary 500 (by norm_num) (by norm_num)).2.2.2.1 (by norm_num)⟩

/-! ## Claim C9: the batch summary -/

lemma runChunks_eq_map (f : String → BatchItem) (limit : ℕ) :
    ∀ (n : ℕ) (urls : List String), urls.length ≤ n →
      runChunks f limit urls = urls.map f := by
  intro n
  induction n with
  | zero =>
    intro urls h
    have : urls = [] := List.length_eq_zero.mp (Nat.le_zero.mp h)
    subst this
    simp [runChunks]
  | succ n ih =>
    intro urls h
    cases urls with
    | nil => simp [runChunks]
    | cons u rest =>
      rw [runChunks]
      rw [ih ((u :: rest).drop (max 1 limit)) ?hlen]
      · rw [← List.map_append, List.take_append_drop]
      case hlen =>
        simp only [List.length_drop, List.length_cons]
        simp only [List.length_cons] at h
        omega

lemma length_filter_add_not {α : Type} (p : α → Bool) (l : List α) :
    (l.filter p).length + (l.filter fun a => !(p a)).length = l.length := by
  induction l with
  | nil => rfl
  | cons a l ih =>
    cases h : p a <;> simp [List.filter_cons, h, ← ih] <;> omega

/-- C9: for every target list and per-target oracles,
`processBatchScraping` produces exactly one result entry per input target
in order (the chunked `Promise.allSettled` loop neither drops nor
duplicates entries, and one target's failure never removes a sibling's
result — each entry depends only on its own target), and its summary
satisfies `total = urls.length` and `total = successful + failed`. -/
theorem c9_batch_summary (urls : List String) (proxyOf : String → Option Route)
    (fetchOf : String → Option Route → ℕ → Option String) :
    (processBatchScraping urls proxyOf fetchOf).2 =
        urls.map (scrapeTarget proxyOf fetchOf) ∧
      (processBatchScraping urls proxyOf fetchOf).1.total = urls.length ∧
      (processBatchScraping urls proxyOf fetchOf).1.total =
        (processBatchScraping urls proxyOf fetchOf).1.successful +
          (processBatchScraping urls proxyOf fetchOf).1.failed := by
  have hres : runChunks (scrapeTarget proxyOf fetchOf) (min 5 urls.length) urls =
      urls.map (scrapeTarget proxyOf fetchOf) :=
    runChunks_eq_map (scrapeTarget proxyOf fetchOf) (min 5 urls.length) urls.length urls le_rfl
  refine ⟨hres, rfl, ?_⟩
  show urls.length = _
  simp only [processBatchScraping, hres]
  rw [length_filter_add_not (fun r => r.success) (urls.map (scrapeTarget proxyOf fetchOf)),
    List.length_map]
